import Mathlib

/-!
# KindaLike — chatbot orchestration flow, shallow embedding

Verification development for the KindaLike restaurant-recommendation
application.  The relational schema and trigger are embedded from
`database/002_add_chat_tables.sql`; the chat UI submit handler from
`src/pages/Chatbot.jsx`.  The backend services
(`backend/app/routes/chatbot.py`, `backend/app/services/llm_service.py`,
`backend/app/services/yelp_service.py`,
`backend/app/services/location_service.py`) are not part of the source
tree; where a definition depends on them it is modelled from the
specification and marked as such in its doc comment.
-/

namespace KindaLike

/-! ## Listings and raw provider results (spec section 3) -/

/-- Modelled from the spec: raw result shape of the external business-search
provider (the Yelp client in `backend/app/services/yelp_service.py` is not
under src).  Phone and image may be absent in the raw payload. -/
structure RawBusiness where
  name : String
  rating : ℚ
  review_count : Nat
  categories : List String
  price : String
  distance : ℚ
  address : String
  phone : Option String
  image_url : Option String
  url : String
  deriving DecidableEq, Repr

/-- Normalized listing record (spec section 3): phone is the sentinel
"N/A" when missing, image URL stays optional. -/
structure Listing where
  name : String
  rating : ℚ
  review_count : Nat
  categories : List String
  price : String
  distance : ℚ
  address : String
  phone : String
  image_url : Option String
  url : String
  deriving DecidableEq, Repr

/-- Modelled from the spec: normalization of one raw search result into the
Listing shape (missing phone becomes "N/A"; missing image stays absent). -/
def normalizeListing (b : RawBusiness) : Listing :=
  { name := b.name
    rating := b.rating
    review_count := b.review_count
    categories := b.categories
    price := b.price
    distance := b.distance
    address := b.address
    phone := b.phone.getD "N/A"
    image_url := b.image_url
    url := b.url }

/-! ## Preferences and intents (spec sections 3, 4.2) -/

/-- Stored survey answers for one user (values produced by
`src/pages/Survey.jsx`). -/
structure Preference where
  cuisine_type : String
  price_range : String
  dining_style : String
  dietary_restrictions : String
  atmosphere : String
  deriving DecidableEq, Repr

/-- Absent preference treated as all-empty (spec section 4.5 step 3). -/
def Preference.empty : Preference :=
  { cuisine_type := ""
    price_range := ""
    dining_style := ""
    dietary_restrictions := ""
    atmosphere := "" }

/-- Attributes object of an Intent (spec section 3 and the JSON schema shown
in CHATBOT_SETUP.md section "LLM Category Generation"). -/
structure IntentAttributes where
  cuisine_type : String
  price_level : Option Nat
  occasion : String
  ambiance_keywords : List String
  special_features : List String
  deriving DecidableEq, Repr

/-- Structured output of the Intent Extractor (spec section 3). -/
structure Intent where
  hierarchical_categories : List String
  primary_categories : List String
  attributes : IntentAttributes
  reasoning : String
  deriving DecidableEq, Repr

/-- Modelled from the spec: mapping from the survey price-range values
(`src/pages/Survey.jsx`: budget, moderate, upscale, fine-dining) to the
1-4 price level used by the search provider. -/
def priceLevelOfRange (r : String) : Option Nat :=
  if r = "budget" then some 1
  else if r = "moderate" then some 2
  else if r = "upscale" then some 3
  else if r = "fine-dining" then some 4
  else none

/-- Modelled from the spec: the deterministic default Intent derived solely
from the stored preferences, used when the LLM call fails or returns
malformed output (`backend/app/services/llm_service.py` is not under src). -/
def defaultIntent (p : Preference) : Intent :=
  { hierarchical_categories := ["Food & Dining", "Restaurants"]
    primary_categories :=
      if p.cuisine_type = "" then ["restaurants"] else [p.cuisine_type.toLower]
    attributes :=
      { cuisine_type := p.cuisine_type
        price_level := priceLevelOfRange p.price_range
        occasion := ""
        ambiance_keywords := []
        special_features := [] }
    reasoning := "Fallback intent derived from stored preferences" }

/-- Outcome of one LLM provider call as seen by the Intent Extractor:
the call can fail (network, timeout, auth), return output that is not valid
JSON of the expected shape, or return a parsed Intent. -/
inductive LLMOutcome where
  | failure : LLMOutcome
  | malformed : LLMOutcome
  | parsed : Intent → LLMOutcome
  deriving DecidableEq

/-- Modelled from the spec: the Intent Extractor
(`backend/app/services/llm_service.py` is not under src).  One provider
call, one fallback path, never an error to the caller. -/
def extractIntent (outcome : LLMOutcome) (prefs : Preference) : Intent :=
  match outcome with
  | LLMOutcome.failure => defaultIntent prefs
  | LLMOutcome.malformed => defaultIntent prefs
  | LLMOutcome.parsed i => i

/-! ## Location Resolver (spec section 4.1) -/

/-- Outcome of one geolocation provider call: provider error, timeout,
unparseable response, or a place string. -/
inductive GeoOutcome where
  | error : GeoOutcome
  | timeout : GeoOutcome
  | unparseable : GeoOutcome
  | place : String → GeoOutcome
  deriving DecidableEq

/-- Fixed default place string, documented in CHATBOT_SETUP.md
("Default fallback is Ithaca, NY"). -/
def defaultPlace : String := "Ithaca, NY"

/-- Modelled from the spec: the Location Resolver
(`backend/app/services/location_service.py` is not under src).
Never fails outward; on provider error, timeout, or unparseable response
returns the fixed default place string. -/
def resolveLocation (o : GeoOutcome) : String :=
  match o with
  | GeoOutcome.place s => s
  | GeoOutcome.error => defaultPlace
  | GeoOutcome.timeout => defaultPlace
  | GeoOutcome.unparseable => defaultPlace

/-! ## Listing Search (spec section 4.3) -/

/-- Modelled from the spec: the Listing Search component
(`backend/app/services/yelp_service.py` is not under src).  The provider is
a black-box function from intent, location and price filter to an optional
ranked result list (none models a failed provider call).  One call;
truncation to at most 5 results preserving provider order; normalization
per listing; empty sequence on failure. -/
def searchListings (provider : Intent → String → Option Nat → Option (List RawBusiness))
    (intent : Intent) (loc : String) (priceF : Option Nat) : List Listing :=
  match provider intent loc priceF with
  | none => []
  | some rs => (rs.take 5).map normalizeListing

/-! ## String trimming (JS String.prototype.trim) -/

/-- Removal of leading whitespace characters from a character list. -/
def dropWhileWS : List Char → List Char
  | [] => []
  | c :: cs => if c.isWhitespace then dropWhileWS cs else c :: cs

/-- Executable embedding of the JavaScript trim method: strips whitespace
from both ends of the string. -/
def jsTrim (s : String) : String :=
  String.mk ((dropWhileWS ((dropWhileWS s.data).reverse)).reverse)

/-! ## Conversation Store (database/002_add_chat_tables.sql, spec section 4.4)

Time is a logical clock (Nat); every operation happens at the store clock
advanced by a nonnegative delta, modelling CURRENT_TIMESTAMP. -/

/-- Row of the chat_sessions table as used by the chat flow
(database/002_add_chat_tables.sql lines 4-10). -/
structure ChatSession where
  id : Nat
  user_id : Nat
  started_at : Nat
  last_message_at : Nat
  is_active : Bool
  deriving DecidableEq, Repr

/-- Row of the chat_messages table
(database/002_add_chat_tables.sql lines 13-20). -/
structure ChatMessage where
  id : Nat
  session_id : Nat
  role : String
  content : String
  recommendations : Option (List Listing)
  created_at : Nat
  deriving DecidableEq, Repr

/-- State of the Conversation Store: both tables, the SERIAL id counters,
and the database clock. -/
structure Store where
  sessions : List ChatSession
  messages : List ChatMessage
  nextSessionId : Nat
  nextMessageId : Nat
  now : Nat
  deriving DecidableEq, Repr

/-- Embedding of the trigger function update_session_last_message
(database/002_add_chat_tables.sql lines 31-40): UPDATE chat_sessions SET
last_message_at = CURRENT_TIMESTAMP WHERE id = NEW.session_id. -/
def touchSession (sid t : Nat) (ss : List ChatSession) : List ChatSession :=
  ss.map fun s => if s.id = sid then { s with last_message_at := t } else s

/-- Message insert plus the AFTER INSERT trigger update_session_timestamp
(database/002_add_chat_tables.sql lines 43-46): the new row is created at
the current time and the parent session's last_message_at is set to that
same CURRENT_TIMESTAMP as part of the same operation. -/
def Store.appendMessage (st : Store) (sid : Nat) (role content : String)
    (recs : Option (List Listing)) (delta : Nat) : ChatMessage × Store :=
  let t := st.now + delta
  let msg : ChatMessage :=
    { id := st.nextMessageId
      session_id := sid
      role := role
      content := content
      recommendations := recs
      created_at := t }
  (msg,
    { sessions := touchSession sid t st.sessions
      messages := st.messages ++ [msg]
      nextSessionId := st.nextSessionId
      nextMessageId := st.nextMessageId + 1
      now := t })

/-- Session creation (spec section 4.4; column defaults in
database/002_add_chat_tables.sql lines 4-10): started_at = last_message_at
= now, is_active = true. -/
def Store.createSession (st : Store) (uid delta : Nat) : ChatSession × Store :=
  let t := st.now + delta
  let s : ChatSession :=
    { id := st.nextSessionId
      user_id := uid
      started_at := t
      last_message_at := t
      is_active := true }
  (s,
    { sessions := st.sessions ++ [s]
      messages := st.messages
      nextSessionId := st.nextSessionId + 1
      nextMessageId := st.nextMessageId
      now := t })

/-- Lookup of a session row by primary key. -/
def Store.findSession (st : Store) (sid : Nat) : Option ChatSession :=
  st.sessions.find? fun s => s.id == sid

/-- Messages of one session in creation order. -/
def Store.messagesOf (st : Store) (sid : Nat) : List ChatMessage :=
  st.messages.filter fun m => m.session_id == sid

/-! ## Chat Orchestrator (spec section 4.5)

Modelled from the spec: `backend/app/routes/chatbot.py` is not under src;
the pipeline below follows spec section 4.5 steps 1-7 and the error
taxonomy of section 7. -/

/-- Request body of POST /api/chat/message (spec section 6). -/
structure ChatRequest where
  message : String
  session_id : Option Nat
  location : Option String
  deriving DecidableEq, Repr

/-- Success response of POST /api/chat/message (spec section 6). -/
structure ChatResponse where
  session_id : Nat
  message_id : Nat
  response : String
  recommendations : List Listing
  deriving DecidableEq, Repr

/-- Errors that cross the component boundary (spec section 7). -/
inductive ChatError where
  | authError : ChatError
  | persistError : ChatError
  | validationError : ChatError
  deriving DecidableEq, Repr

/-- External collaborators of one orchestration call: the LLM provider, the
search provider, the geolocation outcome, and store availability. -/
structure ProviderEnv where
  llm : String → Preference → LLMOutcome
  search : Intent → String → Option Nat → Option (List RawBusiness)
  geo : GeoOutcome
  storeAvailable : Bool

/-- Modelled from the spec: user-facing reply when the search produced no
listings (CHATBOT_SETUP.md: the chatbot says it "couldn't find any
restaurants"). -/
def noResultsReply : String :=
  "I couldn't find any restaurants matching your request. Try a different location or a more general query."

/-- Modelled from the spec: user-facing reply accompanying a non-empty
recommendation list. -/
def successReply (listings : List Listing) : String :=
  "Here are my top " ++ toString listings.length ++ " restaurant recommendations for you!"

/-- Modelled from the spec: step 1 of the pipeline — validate that the
caller owns the target session, or create a new one when no session id is
given (spec section 4.5 step 1, section 4.4 authorization). -/
def authOrCreate (uid : Nat) (sid? : Option Nat) (delta : Nat) (st : Store) :
    Except ChatError (Nat × Store) :=
  match sid? with
  | some sid =>
      match st.findSession sid with
      | none => Except.error ChatError.authError
      | some s =>
          if s.user_id = uid then Except.ok (sid, st)
          else Except.error ChatError.authError
  | none =>
      let p := st.createSession uid delta
      Except.ok (p.1.id, p.2)

/-- Modelled from the spec: step 2 — explicit override in the request takes
priority, otherwise the Location Resolver runs on the caller's network
address (spec section 4.5 step 2). -/
def pipelineLoc (req : ChatRequest) (env : ProviderEnv) : String :=
  match req.location with
  | some l => l
  | none => resolveLocation env.geo

/-- Modelled from the spec: steps 3-5 — absent preference treated as
all-empty, intent extraction on the message and preferences, listing search
with the intent, the resolved location and the preference price filter. -/
def pipelineListings (req : ChatRequest) (env : ProviderEnv)
    (prefs : Option Preference) : List Listing :=
  searchListings env.search
    (extractIntent (env.llm req.message (prefs.getD Preference.empty))
      (prefs.getD Preference.empty))
    (pipelineLoc req env)
    (priceLevelOfRange (prefs.getD Preference.empty).price_range)

/-- Modelled from the spec: the assistant reply text — a "no restaurants
found" message for an empty result, a recommendation message otherwise. -/
def pipelineReply (req : ChatRequest) (env : ProviderEnv)
    (prefs : Option Preference) : String :=
  if (pipelineListings req env prefs).isEmpty then noResultsReply
  else successReply (pipelineListings req env prefs)

/-- Modelled from the spec: the POST /api/chat/message pipeline
(spec section 4.5 steps 1-7).  Validation, then store availability (a
persistence failure aborts with the store untouched), then session
ownership or creation, then the absorbed provider calls, and the
all-or-nothing append of both turns; the second component is the resulting
store state. -/
def sendMessagePipeline (uid : Nat) (req : ChatRequest) (env : ProviderEnv)
    (prefs : Option Preference) (d1 d2 d3 : Nat) (st : Store) :
    Except ChatError ChatResponse × Store :=
  if (jsTrim req.message) = "" then (Except.error ChatError.validationError, st)
  else if env.storeAvailable = false then (Except.error ChatError.persistError, st)
  else
    match authOrCreate uid req.session_id d1 st with
    | Except.error e => (Except.error e, st)
    | Except.ok (sid, st1) =>
        let listings := pipelineListings req env prefs
        let reply := pipelineReply req env prefs
        let u := st1.appendMessage sid "user" req.message none d2
        let a := u.2.appendMessage sid "assistant" reply (some listings) d3
        (Except.ok
          { session_id := sid
            message_id := a.1.id
            response := reply
            recommendations := listings }, a.2)

/-- Modelled from the spec: GET /api/chat/sessions/{id}/messages
(spec sections 4.4 and 6; the backend route handler is not under src).
Every read verifies the target session belongs to the requesting user;
cross-user access fails with an authorization error. -/
def getSessionMessages (uid sid : Nat) (st : Store) :
    Except ChatError (List ChatMessage) :=
  match st.findSession sid with
  | none => Except.error ChatError.authError
  | some s =>
      if s.user_id = uid then Except.ok (st.messagesOf sid)
      else Except.error ChatError.authError

/-! ## Operation sequences on the store (for the session-timestamp invariant) -/

/-- Store operation: a message append (insert plus trigger) or a session
creation; each carries the clock advance of its CURRENT_TIMESTAMP. -/
inductive StoreOp where
  | append : Nat → String → String → Option (List Listing) → Nat → StoreOp
  | create : Nat → Nat → StoreOp
  deriving DecidableEq

/-- Effect of one store operation on the store state. -/
def applyOp (st : Store) (op : StoreOp) : Store :=
  match op with
  | StoreOp.append sid role content recs d =>
      (st.appendMessage sid role content recs d).2
  | StoreOp.create uid d => (st.createSession uid d).2

/-- Effect of a sequence of store operations, applied left to right. -/
def applyOps (st : Store) (ops : List StoreOp) : Store :=
  ops.foldl applyOp st

/-- Per-session timestamp soundness: started_at ≤ last_message_at, and no
session timestamp is ahead of the database clock (CURRENT_TIMESTAMP). -/
def Store.SessionsOk (st : Store) : Prop :=
  ∀ s ∈ st.sessions, s.started_at ≤ s.last_message_at ∧ s.last_message_at ≤ st.now

instance (st : Store) : Decidable st.SessionsOk := by
  unfold Store.SessionsOk
  infer_instance

/-! ## Chat UI submit handler (src/pages/Chatbot.jsx lines 34-81) -/

/-- Message as held in the Chatbot page's messages state. -/
structure UIMessage where
  role : String
  content : String
  recommendations : Option (List Listing)
  created_at : Nat
  deriving DecidableEq, Repr

/-- React state of the Chatbot page relevant to handleSubmit. -/
structure ChatUIState where
  messages : List UIMessage
  inputMessage : String
  isLoading : Bool
  error : String
  sessionId : Option Nat
  deriving DecidableEq, Repr

/-- Embedding of handleSubmit in src/pages/Chatbot.jsx lines 34-81.  The
backend call is a parameter (ok response or rejection message); tUser and
tAsst are the two Date timestamps taken inside the handler.  The returned
Bool records whether a network call was performed.  The early return fires
when the trimmed input is empty or a request is already in flight; on
success the assistant turn is appended; on rejection the error string is
set (with the JS falsy default for an empty message) and the optimistic
user message is removed by slice(0, -1). -/
def handleSubmit (st : ChatUIState) (backend : Except String ChatResponse)
    (tUser tAsst : Nat) : ChatUIState × Bool :=
  if (jsTrim st.inputMessage) = "" ∨ st.isLoading = true then (st, false)
  else
    let userMessage := (jsTrim st.inputMessage)
    let base : ChatUIState :=
      { st with
          inputMessage := ""
          error := ""
          messages := st.messages ++
            [{ role := "user", content := userMessage,
               recommendations := none, created_at := tUser }] }
    match backend with
    | Except.ok resp =>
        ({ base with
            sessionId :=
              if st.sessionId = none then some resp.session_id else st.sessionId
            messages := base.messages ++
              [{ role := "assistant", content := resp.response,
                 recommendations := some resp.recommendations,
                 created_at := tAsst }]
            isLoading := false }, true)
    | Except.error msg =>
        ({ base with
            error := if msg = "" then "Failed to get response. Please try again." else msg
            messages := base.messages.dropLast
            isLoading := false }, true)

/-! ## Relational schema constraints (database/002_add_chat_tables.sql) -/

/-- Row of chat_sessions at the schema level: user_id is a nullable
foreign key (REFERENCES users(id) ON DELETE CASCADE, no NOT NULL). -/
structure SessionRow where
  id : Nat
  user_id : Option Nat
  started_at : Nat
  last_message_at : Nat
  is_active : Bool
  deriving DecidableEq, Repr

/-- Row of chat_messages at the schema level: session_id is a nullable
foreign key; recommendations is opaque JSONB. -/
structure MessageRow where
  id : Nat
  session_id : Option Nat
  role : String
  content : String
  recommendations : Option String
  created_at : Nat
  deriving DecidableEq, Repr

/-- Database state: users table (ids), chat_sessions, chat_messages. -/
structure ChatDB where
  users : List Nat
  sessions : List SessionRow
  messages : List MessageRow
  deriving DecidableEq, Repr

/-- CHECK (role IN ('user', 'assistant')) from
database/002_add_chat_tables.sql line 16. -/
def roleCheck (r : String) : Bool :=
  r == "user" || r == "assistant"

/-- Foreign-key satisfaction for a nullable session reference. -/
def sessionFKOk (ss : List SessionRow) (osid : Option Nat) : Bool :=
  match osid with
  | none => true
  | some sid => ss.any fun s => s.id == sid

/-- Foreign-key satisfaction for a nullable user reference. -/
def userFKOk (us : List Nat) (ouid : Option Nat) : Bool :=
  match ouid with
  | none => true
  | some uid => us.any fun v => v == uid

/-- Well-formedness enforced by the schema: every message role passes the
CHECK constraint, every non-null message session reference resolves, and
every non-null session user reference resolves. -/
def ChatDB.wf (db : ChatDB) : Bool :=
  (db.messages.all fun m => roleCheck m.role && sessionFKOk db.sessions m.session_id) &&
  (db.sessions.all fun s => userFKOk db.users s.user_id)

/-- INSERT INTO chat_messages: rejected (none) when the CHECK constraint on
role or the session foreign key is violated. -/
def insertMessageRow (db : ChatDB) (m : MessageRow) : Option ChatDB :=
  if roleCheck m.role && sessionFKOk db.sessions m.session_id then
    some { db with messages := db.messages ++ [m] }
  else none

/-- INSERT INTO chat_sessions: rejected (none) when the user foreign key is
violated. -/
def insertSessionRow (db : ChatDB) (s : SessionRow) : Option ChatDB :=
  if userFKOk db.users s.user_id then
    some { db with sessions := db.sessions ++ [s] }
  else none

/-- DELETE FROM chat_sessions WHERE id = sid, with ON DELETE CASCADE on
chat_messages.session_id: the session's messages are deleted with it. -/
def deleteSessionRow (db : ChatDB) (sid : Nat) : ChatDB :=
  { db with
      sessions := db.sessions.filter fun s => !(s.id == sid)
      messages := db.messages.filter fun m => !(m.session_id == some sid) }

/-- DELETE FROM users WHERE id = uid, with ON DELETE CASCADE on
chat_sessions.user_id and, transitively, on chat_messages.session_id: the
user's sessions and those sessions' messages are deleted with the user. -/
def deleteUserRow (db : ChatDB) (uid : Nat) : ChatDB :=
  { users := db.users.filter fun v => !(v == uid)
    sessions := db.sessions.filter fun s => !(s.user_id == some uid)
    messages := db.messages.filter fun m =>
      !((db.sessions.filter fun s => s.user_id == some uid).any
        fun s => m.session_id == some s.id) }

/-! ## Concrete sample data for instantiations -/

/-- Session 1 owned by user 1, timestamps 0, active. -/
def sampleSession : ChatSession :=
  { id := 1, user_id := 1, started_at := 0, last_message_at := 0, is_active := true }

/-- Store holding only sampleSession, empty message log, clock 0. -/
def sampleStore : Store :=
  { sessions := [sampleSession], messages := [], nextSessionId := 2,
    nextMessageId := 0, now := 0 }

/-- Request targeting session 1 with a location override. -/
def sampleReq : ChatRequest :=
  { message := "dinner", session_id := some 1, location := some "Ithaca, NY" }

/-- Environment whose LLM call fails, whose search provider call fails, and
whose geolocation call errors, with the store available. -/
def sampleEnvFail : ProviderEnv :=
  { llm := fun _ _ => LLMOutcome.failure
    search := fun _ _ _ => none
    geo := GeoOutcome.error
    storeAvailable := true }

/-- Environment whose LLM call parses an intent and whose search provider
returns one raw result. -/
def sampleEnvOk : ProviderEnv :=
  { llm := fun _ p => LLMOutcome.parsed (defaultIntent p)
    search := fun _ _ _ => some
      [{ name := "Trattoria", rating := 4, review_count := 120,
         categories := ["italian"], price := "$$", distance := 1,
         address := "1 Main St", phone := none, image_url := none,
         url := "https://example.com/t" }]
    geo := GeoOutcome.place "Ithaca, NY"
    storeAvailable := true }

/-- Database with one user (id 1), one session of that user, and one user
message in that session. -/
def sampleDB : ChatDB :=
  { users := [1]
    sessions :=
      [{ id := 1, user_id := some 1, started_at := 0,
         last_message_at := 0, is_active := true }]
    messages :=
      [{ id := 1, session_id := some 1, role := "user",
         content := "hi", recommendations := none, created_at := 0 }] }

/-- Assistant message row targeting session 1. -/
def sampleMsgRow : MessageRow :=
  { id := 2, session_id := some 1, role := "assistant", content := "hello",
    recommendations := none, created_at := 1 }

/-- Session row owned by user 1. -/
def sampleSessRow : SessionRow :=
  { id := 2, user_id := some 1, started_at := 1, last_message_at := 1,
    is_active := true }

/-! ## Helper lemmas -/

theorem find?_append_of_some {α : Type} (p : α → Bool) (l1 l2 : List α) (a : α)
    (h : l1.find? p = some a) : (l1 ++ l2).find? p = some a := by
  induction l1 with
  | nil => simp [List.find?] at h
  | cons hd tl ih =>
      rw [List.cons_append]
      cases hp : p hd with
      | true =>
          rw [List.find?_cons_of_pos _ hp] at h ⊢
          exact h
      | false =>
          rw [List.find?_cons_of_neg _ (by simp [hp])] at h ⊢
          exact ih h

theorem touchSession_id_preserved (sid t : Nat) (s : ChatSession) :
    (if s.id = sid then { s with last_message_at := t } else s).id = s.id := by
  split <;> rfl

theorem find?_touchSession (sid t sid2 : Nat) (ss : List ChatSession) :
    (touchSession sid t ss).find? (fun s => s.id == sid2) =
      (ss.find? fun s => s.id == sid2).map
        (fun s => if s.id = sid then { s with last_message_at := t } else s) := by
  induction ss with
  | nil => rfl
  | cons hd tl ih =>
      unfold touchSession at ih ⊢
      simp only [List.map_cons, List.find?]
      rw [touchSession_id_preserved]
      cases hp : (hd.id == sid2) with
      | true => simp [hp]
      | false => simp only [hp]; exact ih

theorem touchSession_last (sid t : Nat) (ss : List ChatSession) :
    ∀ s2 ∈ touchSession sid t ss, s2.id = sid → s2.last_message_at = t := by
  intro s2 hmem hid
  unfold touchSession at hmem
  rcases List.mem_map.1 hmem with ⟨s, _, rfl⟩
  by_cases h : s.id = sid
  · simp [h]
  · rw [if_neg h] at hid ⊢
    exact absurd hid h

theorem authOrCreate_messages (uid : Nat) (sid? : Option Nat) (d : Nat) (st : Store)
    (sid : Nat) (st1 : Store) (h : authOrCreate uid sid? d st = Except.ok (sid, st1)) :
    st1.messages = st.messages := by
  cases sid? with
  | none =>
      unfold authOrCreate at h
      simp only [Except.ok.injEq, Prod.mk.injEq] at h
      rw [← h.2]
      rfl
  | some s0 =>
      unfold authOrCreate at h
      dsimp only at h
      cases hf : st.findSession s0 with
      | none => rw [hf] at h; exact absurd h (by simp)
      | some s =>
          rw [hf] at h
          dsimp only at h
          by_cases ho : s.user_id = uid
          · rw [if_pos ho] at h
            simp only [Except.ok.injEq, Prod.mk.injEq] at h
            rw [← h.2]
          · rw [if_neg ho] at h
            exact absurd h (by simp)

theorem sendMessagePipeline_ok_eq (uid : Nat) (req : ChatRequest) (env : ProviderEnv)
    (prefs : Option Preference) (d1 d2 d3 : Nat) (st : Store) (sid : Nat) (st1 : Store)
    (hmsg : ¬(jsTrim req.message) = "") (hav : env.storeAvailable = true)
    (hauth : authOrCreate uid req.session_id d1 st = Except.ok (sid, st1)) :
    sendMessagePipeline uid req env prefs d1 d2 d3 st =
      (Except.ok
        { session_id := sid
          message_id := st1.nextMessageId + 1
          response := pipelineReply req env prefs
          recommendations := pipelineListings req env prefs },
       ((st1.appendMessage sid "user" req.message none d2).2.appendMessage sid
          "assistant" (pipelineReply req env prefs)
          (some (pipelineListings req env prefs)) d3).2) := by
  unfold sendMessagePipeline
  rw [if_neg hmsg, if_neg (by rw [hav]; simp), hauth]
  rfl

theorem sendMessagePipeline_err_store (uid : Nat) (req : ChatRequest) (env : ProviderEnv)
    (prefs : Option Preference) (d1 d2 d3 : Nat) (st : Store) (e : ChatError)
    (h : (sendMessagePipeline uid req env prefs d1 d2 d3 st).1 = Except.error e) :
    (sendMessagePipeline uid req env prefs d1 d2 d3 st).2 = st := by
  unfold sendMessagePipeline at h ⊢
  by_cases h1 : (jsTrim req.message) = ""
  · rw [if_pos h1]
  · rw [if_neg h1] at h ⊢
    by_cases h2 : env.storeAvailable = false
    · rw [if_pos h2]
    · rw [if_neg h2] at h ⊢
      cases hauth : authOrCreate uid req.session_id d1 st with
      | error e2 => rfl
      | ok p =>
          rw [hauth] at h
          exact absurd h (by simp)

theorem noResultsReply_ne_empty : ¬noResultsReply = "" := by decide

theorem successReply_ne_empty (l : List Listing) : ¬successReply l = "" := by
  unfold successReply
  intro h
  have h2 := congrArg String.length h
  rw [String.length_append, String.length_append] at h2
  have h3 : "Here are my top ".length = 16 := rfl
  have h4 : ("" : String).length = 0 := rfl
  rw [h3, h4] at h2
  omega

theorem pipelineReply_ne_empty (req : ChatRequest) (env : ProviderEnv)
    (prefs : Option Preference) : ¬pipelineReply req env prefs = "" := by
  unfold pipelineReply
  split
  · exact noResultsReply_ne_empty
  · exact successReply_ne_empty _

theorem pipelineListings_of_empty_search (req : ChatRequest) (env : ProviderEnv)
    (prefs : Option Preference)
    (hsearch : ∀ i l pf, env.search i l pf = none ∨ env.search i l pf = some []) :
    pipelineListings req env prefs = [] := by
  unfold pipelineListings searchListings
  rcases hsearch
      (extractIntent (env.llm req.message (prefs.getD Preference.empty))
        (prefs.getD Preference.empty))
      (pipelineLoc req env)
      (priceLevelOfRange (prefs.getD Preference.empty).price_range) with h | h
  · rw [h]
  · rw [h]
    rfl

/-! ## Claim theorems -/

/-- C5: for every intent, location and price filter, Listing Search returns
at most 5 listings, and when the provider call succeeds the result is
exactly the normalization of the first five provider results in provider
order — no local re-ranking or re-sorting. -/
theorem listing_search_cap_and_provider_order
    (provider : Intent → String → Option Nat → Option (List RawBusiness))
    (intent : Intent) (loc : String) (priceF : Option Nat) :
    (searchListings provider intent loc priceF).length ≤ 5 ∧
    ∀ rs, provider intent loc priceF = some rs →
      searchListings provider intent loc priceF = (rs.take 5).map normalizeListing ∧
      (searchListings provider intent loc priceF).map Listing.name =
        (rs.map RawBusiness.name).take 5 := by
  constructor
  · unfold searchListings
    cases h : provider intent loc priceF with
    | none => simp
    | some rs =>
        simp only [List.length_map, List.length_take]
        exact min_le_left 5 rs.length
  · intro rs h
    unfold searchListings
    rw [h]
    refine ⟨rfl, ?_⟩
    rw [← List.map_take, List.map_map]
    rfl

theorem listing_search_cap_and_provider_order_witness :
    searchListings (fun _ _ _ => some []) (defaultIntent Preference.empty)
      "Ithaca, NY" none = (List.take 5 []).map normalizeListing :=
  ((listing_search_cap_and_provider_order (fun _ _ _ => some [])
    (defaultIntent Preference.empty) "Ithaca, NY" none).2 [] rfl).1

/-- C8: the Location Resolver is total — it returns a place string on every
provider outcome, the provider's place string when the call succeeds, and
the fixed default place string (Ithaca, NY) on provider error, timeout, or
unparseable response; no failure propagates outward. -/
theorem location_resolver_never_fails :
    resolveLocation GeoOutcome.error = defaultPlace ∧
    resolveLocation GeoOutcome.timeout = defaultPlace ∧
    resolveLocation GeoOutcome.unparseable = defaultPlace ∧
    defaultPlace = "Ithaca, NY" ∧
    (∀ s, resolveLocation (GeoOutcome.place s) = s) ∧
    (∀ o, ∃ s, resolveLocation o = s) :=
  ⟨rfl, rfl, rfl, rfl, fun _ => rfl, fun o => ⟨resolveLocation o, rfl⟩⟩

/-- C4: when the LLM provider call fails or returns malformed output, the
Intent Extractor returns the deterministic default Intent derived solely
from the stored preferences and raises no error, and the pipeline still
returns a success response with a non-empty reply. -/
theorem intent_extractor_fallback_graceful (uid : Nat) (req : ChatRequest)
    (env : ProviderEnv) (prefs : Option Preference) (d1 d2 d3 : Nat) (st : Store)
    (sid : Nat) (st1 : Store)
    (hmsg : ¬(jsTrim req.message) = "") (hav : env.storeAvailable = true)
    (hauth : authOrCreate uid req.session_id d1 st = Except.ok (sid, st1))
    (hllm : env.llm req.message (prefs.getD Preference.empty) = LLMOutcome.failure ∨
        env.llm req.message (prefs.getD Preference.empty) = LLMOutcome.malformed) :
    extractIntent (env.llm req.message (prefs.getD Preference.empty))
        (prefs.getD Preference.empty) =
      defaultIntent (prefs.getD Preference.empty) ∧
    ∃ r, (sendMessagePipeline uid req env prefs d1 d2 d3 st).1 = Except.ok r ∧
      ¬r.response = "" := by
  constructor
  · rcases hllm with h | h <;> rw [h] <;> rfl
  · rw [sendMessagePipeline_ok_eq uid req env prefs d1 d2 d3 st sid st1 hmsg hav hauth]
    exact ⟨_, rfl, pipelineReply_ne_empty req env prefs⟩

/-- C7: when the Listing Search provider call fails or returns zero results
on every query, the pipeline still returns a success response whose
recommendations field is the empty sequence and whose reply text is the
"no restaurants found" message — never a crash or hard failure. -/
theorem empty_search_graceful (uid : Nat) (req : ChatRequest) (env : ProviderEnv)
    (prefs : Option Preference) (d1 d2 d3 : Nat) (st : Store) (sid : Nat) (st1 : Store)
    (hmsg : ¬(jsTrim req.message) = "") (hav : env.storeAvailable = true)
    (hauth : authOrCreate uid req.session_id d1 st = Except.ok (sid, st1))
    (hsearch : ∀ i l pf, env.search i l pf = none ∨ env.search i l pf = some []) :
    ∃ r, (sendMessagePipeline uid req env prefs d1 d2 d3 st).1 = Except.ok r ∧
      r.recommendations = [] ∧ r.response = noResultsReply := by
  rw [sendMessagePipeline_ok_eq uid req env prefs d1 d2 d3 st sid st1 hmsg hav hauth]
  refine ⟨_, rfl, pipelineListings_of_empty_search req env prefs hsearch, ?_⟩
  show pipelineReply req env prefs = noResultsReply
  unfold pipelineReply
  rw [pipelineListings_of_empty_search req env prefs hsearch]
  rfl

theorem intent_extractor_fallback_graceful_witness :
    extractIntent (sampleEnvFail.llm sampleReq.message
        ((none : Option Preference).getD Preference.empty))
      ((none : Option Preference).getD Preference.empty) =
      defaultIntent ((none : Option Preference).getD Preference.empty) :=
  (intent_extractor_fallback_graceful 1 sampleReq sampleEnvFail none 0 0 0
    sampleStore 1 sampleStore (by decide) rfl rfl (Or.inl rfl)).1

theorem empty_search_graceful_witness :
    ∃ r, (sendMessagePipeline 1 sampleReq sampleEnvFail none 0 0 0 sampleStore).1 =
        Except.ok r ∧ r.recommendations = [] ∧ r.response = noResultsReply :=
  empty_search_graceful 1 sampleReq sampleEnvFail none 0 0 0 sampleStore 1
    sampleStore (by decide) rfl rfl (fun _ _ _ => Or.inl rfl)

/-- C6: any read or write by user A targeting a session owned by a distinct
user B is denied.  The read (GET session messages) fails with the
authorization error carrying no message content, and its response is
independent of the messages stored for that session — replacing the
message log by any other one yields the identical response.  The write
(POST message with B's session id) never succeeds, leaves the store
unchanged, and — whenever it is not already rejected by validation or
store unavailability — fails with the authorization error. -/
theorem cross_user_access_denied (A B sid : Nat) (st : Store) (s : ChatSession)
    (hAB : ¬A = B) (hfind : st.findSession sid = some s) (hown : s.user_id = B) :
    (getSessionMessages A sid st = Except.error ChatError.authError ∧
      ∀ msgs : List ChatMessage,
        getSessionMessages A sid
          { sessions := st.sessions, messages := msgs,
            nextSessionId := st.nextSessionId, nextMessageId := st.nextMessageId,
            now := st.now } = Except.error ChatError.authError) ∧
    ∀ req : ChatRequest, req.session_id = some sid →
      ∀ (env : ProviderEnv) (prefs : Option Preference) (d1 d2 d3 : Nat),
        (sendMessagePipeline A req env prefs d1 d2 d3 st).2 = st ∧
        (∀ r, ¬(sendMessagePipeline A req env prefs d1 d2 d3 st).1 =
          Except.ok r) ∧
        (¬jsTrim req.message = "" → env.storeAvailable = true →
          (sendMessagePipeline A req env prefs d1 d2 d3 st).1 =
            Except.error ChatError.authError) := by
  have hnotA : ¬s.user_id = A := fun hc => hAB ((hown.symm.trans hc).symm)
  have key : ∀ msgs : List ChatMessage,
      getSessionMessages A sid
        { sessions := st.sessions, messages := msgs,
          nextSessionId := st.nextSessionId, nextMessageId := st.nextMessageId,
          now := st.now } = Except.error ChatError.authError := by
    intro msgs
    unfold getSessionMessages
    rw [show Store.findSession
        { sessions := st.sessions, messages := msgs,
          nextSessionId := st.nextSessionId, nextMessageId := st.nextMessageId,
          now := st.now } sid = st.findSession sid from rfl, hfind]
    dsimp only
    rw [if_neg hnotA]
  have hauth : ∀ d : Nat,
      authOrCreate A (some sid) d st = Except.error ChatError.authError := by
    intro d
    unfold authOrCreate
    dsimp only
    rw [hfind]
    dsimp only
    rw [if_neg hnotA]
  refine ⟨⟨key st.messages, key⟩, ?_⟩
  intro req hreq env prefs d1 d2 d3
  by_cases h1 : jsTrim req.message = ""
  · have hrw : sendMessagePipeline A req env prefs d1 d2 d3 st =
        (Except.error ChatError.validationError, st) := by
      unfold sendMessagePipeline
      rw [if_pos h1]
    rw [hrw]
    exact ⟨rfl, ⟨fun r hr => Except.noConfusion hr, fun hm _ => absurd h1 hm⟩⟩
  · cases hb : env.storeAvailable with
    | false =>
        have hrw : sendMessagePipeline A req env prefs d1 d2 d3 st =
            (Except.error ChatError.persistError, st) := by
          unfold sendMessagePipeline
          rw [if_neg h1, if_pos hb]
        rw [hrw]
        exact ⟨rfl, ⟨fun r hr => Except.noConfusion hr,
          fun _ hav => Bool.noConfusion hav⟩⟩
    | true =>
        have hrw : sendMessagePipeline A req env prefs d1 d2 d3 st =
            (Except.error ChatError.authError, st) := by
          unfold sendMessagePipeline
          rw [if_neg h1, if_neg (by rw [hb]; simp), hreq, hauth d1]
        rw [hrw]
        exact ⟨rfl, ⟨fun r hr => Except.noConfusion hr, fun _ _ => rfl⟩⟩

theorem cross_user_access_denied_witness :
    getSessionMessages 2 1 sampleStore = Except.error ChatError.authError ∧
    (sendMessagePipeline 2 sampleReq sampleEnvOk none 0 0 0 sampleStore).1 =
      Except.error ChatError.authError :=
  ⟨(cross_user_access_denied 2 1 1 sampleStore sampleSession (by decide)
      (by decide) rfl).1.1,
   ((cross_user_access_denied 2 1 1 sampleStore sampleSession (by decide)
      (by decide) rfl).2 sampleReq rfl sampleEnvOk none 0 0 0).2.2
     (by decide) rfl⟩

/-- C9: the chat UI submit handler performs no network call and leaves the
state unchanged when the trimmed input is empty or a request is in flight;
and when the backend call rejects, the optimistically appended user message
is removed, so the displayed message list equals its state before the
attempt, with a non-empty error string set. -/
theorem chat_ui_submit_guard_and_rollback (st : ChatUIState)
    (backend : Except String ChatResponse) (tUser tAsst : Nat) :
    ((jsTrim st.inputMessage = "" ∨ st.isLoading = true) →
      handleSubmit st backend tUser tAsst = (st, false)) ∧
    (∀ msg, ¬jsTrim st.inputMessage = "" → st.isLoading = false →
      backend = Except.error msg →
      (handleSubmit st backend tUser tAsst).1.messages = st.messages ∧
      ¬(handleSubmit st backend tUser tAsst).1.error = "" ∧
      (handleSubmit st backend tUser tAsst).2 = true) := by
  constructor
  · intro h
    unfold handleSubmit
    rw [if_pos h]
  · intro msg h1 h2 hb
    unfold handleSubmit
    rw [if_neg (by simp [h1, h2]), hb]
    dsimp only
    refine ⟨List.dropLast_concat, ?_, rfl⟩
    by_cases hmsg0 : msg = ""
    · rw [if_pos hmsg0]
      decide
    · rw [if_neg hmsg0]
      exact hmsg0

theorem chat_ui_submit_guard_and_rollback_witness :
    (handleSubmit
        { messages := [], inputMessage := "pizza", isLoading := false,
          error := "", sessionId := none }
        (Except.error "Network error") 0 0).1.messages = [] :=
  ((chat_ui_submit_guard_and_rollback
      { messages := [], inputMessage := "pizza", isLoading := false,
        error := "", sessionId := none }
      (Except.error "Network error") 0 0).2 "Network error"
    (by decide) rfl rfl).1

/-- C2: the pipeline is all-or-nothing on the message log — every run either
returns an error with the stored messages unchanged, or returns success
having appended exactly the paired user and assistant turns of one session;
no partial message pair is ever left persisted. -/
theorem pipeline_all_or_nothing (uid : Nat) (req : ChatRequest) (env : ProviderEnv)
    (prefs : Option Preference) (d1 d2 d3 : Nat) (st : Store) :
    (∃ e, (sendMessagePipeline uid req env prefs d1 d2 d3 st).1 = Except.error e ∧
      (sendMessagePipeline uid req env prefs d1 d2 d3 st).2.messages = st.messages) ∨
    (∃ r u a, (sendMessagePipeline uid req env prefs d1 d2 d3 st).1 = Except.ok r ∧
      (sendMessagePipeline uid req env prefs d1 d2 d3 st).2.messages =
        st.messages ++ [u, a] ∧
      u.role = "user" ∧ u.recommendations = none ∧ a.role = "assistant" ∧
      u.session_id = r.session_id ∧ a.session_id = r.session_id) := by
  by_cases h1 : (jsTrim req.message) = ""
  · left
    refine ⟨ChatError.validationError, ?_, ?_⟩ <;>
      · unfold sendMessagePipeline
        rw [if_pos h1]
  · cases hav : env.storeAvailable with
    | false =>
        left
        refine ⟨ChatError.persistError, ?_, ?_⟩ <;>
          · unfold sendMessagePipeline
            rw [if_neg h1, if_pos hav]
    | true =>
        cases hauth : authOrCreate uid req.session_id d1 st with
        | error e =>
            left
            have hrw : sendMessagePipeline uid req env prefs d1 d2 d3 st =
                (Except.error e, st) := by
              unfold sendMessagePipeline
              rw [if_neg h1, if_neg (by rw [hav]; simp), hauth]
            rw [hrw]
            exact ⟨e, rfl, rfl⟩
        | ok p =>
            right
            obtain ⟨sid, st1⟩ := p
            rw [sendMessagePipeline_ok_eq uid req env prefs d1 d2 d3 st sid st1
              h1 hav hauth]
            have hm1 := authOrCreate_messages uid req.session_id d1 st sid st1 hauth
            refine ⟨_, (st1.appendMessage sid "user" req.message none d2).1,
              ((st1.appendMessage sid "user" req.message none d2).2.appendMessage sid
                "assistant" (pipelineReply req env prefs)
                (some (pipelineListings req env prefs)) d3).1,
              rfl, ?_, rfl, rfl, rfl, rfl, rfl⟩
            show (st1.messages ++ _) ++ _ = st.messages ++ _
            rw [hm1, List.append_assoc]
            rfl

/-- C1: on a successful call with working Intent Extractor and Listing
Search providers, exactly two new messages are appended for the target
session — a user turn with no listings and an assistant turn — and every
session row with the target id ends with last_message_at equal to the
assistant message's created_at. -/
theorem chat_message_persists_exactly_two (uid : Nat) (req : ChatRequest)
    (env : ProviderEnv) (prefs : Option Preference) (d1 d2 d3 : Nat) (st : Store)
    (sid : Nat) (st1 : Store)
    (hmsg : ¬(jsTrim req.message) = "") (hav : env.storeAvailable = true)
    (hauth : authOrCreate uid req.session_id d1 st = Except.ok (sid, st1))
    (_hllm : ∃ i, env.llm req.message (prefs.getD Preference.empty) =
      LLMOutcome.parsed i)
    (_hsearch : ∀ i l pf, ∃ rs, env.search i l pf = some rs) :
    ∃ r u a,
      (sendMessagePipeline uid req env prefs d1 d2 d3 st).1 = Except.ok r ∧
      (sendMessagePipeline uid req env prefs d1 d2 d3 st).2.messages =
        st.messages ++ [u, a] ∧
      u.role = "user" ∧ u.recommendations = none ∧ u.session_id = sid ∧
      a.role = "assistant" ∧ a.session_id = sid ∧ r.session_id = sid ∧
      ∀ s2 ∈ (sendMessagePipeline uid req env prefs d1 d2 d3 st).2.sessions,
        s2.id = sid → s2.last_message_at = a.created_at := by
  rw [sendMessagePipeline_ok_eq uid req env prefs d1 d2 d3 st sid st1 hmsg hav hauth]
  have hm1 := authOrCreate_messages uid req.session_id d1 st sid st1 hauth
  refine ⟨_, (st1.appendMessage sid "user" req.message none d2).1,
    ((st1.appendMessage sid "user" req.message none d2).2.appendMessage sid
      "assistant" (pipelineReply req env prefs)
      (some (pipelineListings req env prefs)) d3).1,
    rfl, ?_, rfl, rfl, rfl, rfl, rfl, rfl, ?_⟩
  · show (st1.messages ++ _) ++ _ = st.messages ++ _
    rw [hm1, List.append_assoc]
    rfl
  · intro s2 hmem hid
    exact touchSession_last sid _ _ s2 hmem hid

theorem chat_message_persists_exactly_two_witness :
    ∃ r u a,
      (sendMessagePipeline 1 sampleReq sampleEnvOk none 0 0 0 sampleStore).1 =
        Except.ok r ∧
      (sendMessagePipeline 1 sampleReq sampleEnvOk none 0 0 0 sampleStore).2.messages =
        sampleStore.messages ++ [u, a] ∧
      u.role = "user" ∧ u.recommendations = none ∧ u.session_id = 1 ∧
      a.role = "assistant" ∧ a.session_id = 1 ∧ r.session_id = 1 ∧
      ∀ s2 ∈ (sendMessagePipeline 1 sampleReq sampleEnvOk none 0 0 0 sampleStore).2.sessions,
        s2.id = 1 → s2.last_message_at = a.created_at :=
  chat_message_persists_exactly_two 1 sampleReq sampleEnvOk none 0 0 0 sampleStore
    1 sampleStore (by decide) rfl rfl ⟨defaultIntent Preference.empty, rfl⟩
    (fun i l pf => ⟨_, rfl⟩)

theorem applyOp_sessionsOk (st : Store) (op : StoreOp) (hok : st.SessionsOk) :
    (applyOp st op).SessionsOk := by
  cases op with
  | create uid d =>
      intro s hs
      simp only [applyOp, Store.createSession] at hs ⊢
      rcases List.mem_append.1 hs with h | h
      · rcases hok s h with ⟨h1, h2⟩
        exact ⟨h1, h2.trans (Nat.le_add_right _ _)⟩
      · rw [List.mem_singleton] at h
        subst h
        exact ⟨le_refl _, le_refl _⟩
  | append sid role content recs d =>
      intro s hs
      simp only [applyOp, Store.appendMessage, touchSession] at hs ⊢
      rcases List.mem_map.1 hs with ⟨s0, hs0, rfl⟩
      rcases hok s0 hs0 with ⟨h1, h2⟩
      by_cases h : s0.id = sid
      · rw [if_pos h]
        exact ⟨h1.trans (h2.trans (Nat.le_add_right _ _)), le_refl _⟩
      · rw [if_neg h]
        exact ⟨h1, h2.trans (Nat.le_add_right _ _)⟩

theorem applyOp_find_mono (st : Store) (op : StoreOp) (hok : st.SessionsOk)
    (sid : Nat) (s1 : ChatSession) (h : st.findSession sid = some s1) :
    ∃ s2, (applyOp st op).findSession sid = some s2 ∧
      s2.started_at = s1.started_at ∧ s1.last_message_at ≤ s2.last_message_at := by
  cases op with
  | create uid d =>
      refine ⟨s1, ?_, rfl, le_refl _⟩
      unfold Store.findSession at h ⊢
      simp only [applyOp, Store.createSession]
      exact find?_append_of_some _ _ _ _ h
  | append sid2 role content recs d =>
      unfold Store.findSession at h ⊢
      simp only [applyOp, Store.appendMessage]
      rw [find?_touchSession, h]
      refine ⟨_, rfl, ?_, ?_⟩
      · dsimp only
        by_cases hid : s1.id = sid2
        · rw [if_pos hid]
        · rw [if_neg hid]
      · dsimp only
        by_cases hid : s1.id = sid2
        · rw [if_pos hid]
          have hmem := List.mem_of_find?_eq_some h
          exact (hok s1 hmem).2.trans (Nat.le_add_right _ _)
        · rw [if_neg hid]

theorem applyOps_sessionsOk (ops : List StoreOp) (st : Store) (hok : st.SessionsOk) :
    (applyOps st ops).SessionsOk := by
  induction ops generalizing st with
  | nil => exact hok
  | cons op rest ih => exact ih _ (applyOp_sessionsOk st op hok)

theorem applyOps_find_mono (ops : List StoreOp) (st : Store) (hok : st.SessionsOk)
    (sid : Nat) (s1 : ChatSession) (h : st.findSession sid = some s1) :
    ∃ s2, (applyOps st ops).findSession sid = some s2 ∧
      s2.started_at = s1.started_at ∧ s1.last_message_at ≤ s2.last_message_at := by
  induction ops generalizing st s1 with
  | nil => exact ⟨s1, h, rfl, le_refl _⟩
  | cons op rest ih =>
      rcases applyOp_find_mono st op hok sid s1 h with ⟨s2, h2, hst, hle⟩
      rcases ih (applyOp st op) (applyOp_sessionsOk st op hok) s2 h2 with
        ⟨s3, h3, hst3, hle3⟩
      exact ⟨s3, h3, hst3.trans hst, hle.trans hle3⟩

/-- C3: along any sequence of session creations and message appends, every
session keeps started_at ≤ last_message_at ≤ database clock, its
started_at never changes, and its last_message_at is monotonically
non-decreasing between any earlier point and any later point of the
sequence. -/
theorem session_last_message_monotone (st : Store) (hok : st.SessionsOk)
    (l1 l2 : List StoreOp) (sid : Nat) :
    (applyOps st l1).SessionsOk ∧
    ∀ s1, (applyOps st l1).findSession sid = some s1 →
      s1.started_at ≤ s1.last_message_at ∧
      ∃ s2, (applyOps st (l1 ++ l2)).findSession sid = some s2 ∧
        s2.started_at = s1.started_at ∧
        s1.last_message_at ≤ s2.last_message_at := by
  have hok1 := applyOps_sessionsOk l1 st hok
  refine ⟨hok1, fun s1 h1 => ⟨(hok1 s1 (List.mem_of_find?_eq_some h1)).1, ?_⟩⟩
  show ∃ s2, (List.foldl applyOp st (l1 ++ l2)).findSession sid = some s2 ∧ _
  rw [List.foldl_append]
  exact applyOps_find_mono l2 (applyOps st l1) hok1 sid s1 h1

theorem session_last_message_monotone_witness :
    (applyOps sampleStore [StoreOp.create 7 1]).SessionsOk :=
  (session_last_message_monotone sampleStore (by decide) [StoreOp.create 7 1]
    [StoreOp.append 1 "user" "hi" none 2] 1).1

theorem roleCheck_iff (r : String) :
    roleCheck r = true ↔ r = "user" ∨ r = "assistant" := by
  unfold roleCheck
  simp

theorem sessionFKOk_iff (ss : List SessionRow) (osid : Option Nat) :
    sessionFKOk ss osid = true ↔
      ∀ sid2, osid = some sid2 → ∃ s0 ∈ ss, s0.id = sid2 := by
  cases osid with
  | none => simp [sessionFKOk]
  | some sid2 => simp [sessionFKOk, List.any_eq_true]

theorem userFKOk_iff (us : List Nat) (ouid : Option Nat) :
    userFKOk us ouid = true ↔ ∀ v, ouid = some v → v ∈ us := by
  cases ouid with
  | none => simp [userFKOk]
  | some v => simp [userFKOk, List.any_eq_true]

theorem wf_iff (db : ChatDB) : db.wf = true ↔
    (∀ m ∈ db.messages,
      roleCheck m.role = true ∧ sessionFKOk db.sessions m.session_id = true) ∧
    (∀ s ∈ db.sessions, userFKOk db.users s.user_id = true) := by
  unfold ChatDB.wf
  simp [List.all_eq_true, Bool.and_eq_true]

/-- C10: the persisted schema enforces role via the CHECK constraint (an
insert with any other role is rejected) and cascades deletions — deleting a
user removes that user's sessions and those sessions' messages, deleting a
session removes its messages — so well-formedness (every message role is
user or assistant, no message references a missing session, no session
references a missing user) is preserved by inserts and both deletes. -/
theorem schema_check_and_cascade (db : ChatDB) (m : MessageRow) (s : SessionRow)
    (uid sid : Nat) (hwf : db.wf = true) :
    (roleCheck m.role = false → insertMessageRow db m = none) ∧
    (∀ db2, insertMessageRow db m = some db2 →
      (m.role = "user" ∨ m.role = "assistant") ∧ db2.wf = true) ∧
    (∀ db2, insertSessionRow db s = some db2 → db2.wf = true) ∧
    (deleteUserRow db uid).wf = true ∧
    (deleteSessionRow db sid).wf = true := by
  rw [wf_iff] at hwf
  obtain ⟨hmsgs, hsess⟩ := hwf
  refine ⟨?_, ?_, ?_, ?_, ?_⟩
  · intro hrole
    unfold insertMessageRow
    rw [if_neg (by rw [hrole]; simp)]
  · intro db2 hins
    unfold insertMessageRow at hins
    by_cases hcond : (roleCheck m.role && sessionFKOk db.sessions m.session_id) = true
    · have hcond2 := hcond
      rw [Bool.and_eq_true] at hcond2
      obtain ⟨ha, hb⟩ := hcond2
      rw [if_pos hcond] at hins
      obtain rfl := Option.some.inj hins
      refine ⟨(roleCheck_iff m.role).1 ha, ?_⟩
      rw [wf_iff]
      refine ⟨?_, fun s2 hs2 => hsess s2 hs2⟩
      intro m2 hm2
      rcases List.mem_append.1 hm2 with h | h
      · exact hmsgs m2 h
      · rw [List.mem_singleton] at h
        subst h
        exact ⟨ha, hb⟩
    · rw [if_neg hcond] at hins
      cases hins
  · intro db2 hins
    unfold insertSessionRow at hins
    by_cases hcond : userFKOk db.users s.user_id = true
    · rw [if_pos hcond] at hins
      obtain rfl := Option.some.inj hins
      rw [wf_iff]
      constructor
      · intro m2 hm2
        obtain ⟨hr, hfk⟩ := hmsgs m2 hm2
        refine ⟨hr, ?_⟩
        rw [sessionFKOk_iff] at hfk ⊢
        intro sid2 hsid2
        rcases hfk sid2 hsid2 with ⟨s0, hs0, hid⟩
        exact ⟨s0, List.mem_append.2 (Or.inl hs0), hid⟩
      · intro s2 hs2
        rcases List.mem_append.1 hs2 with h | h
        · exact hsess s2 h
        · rw [List.mem_singleton] at h
          subst h
          exact hcond
    · rw [if_neg hcond] at hins
      cases hins
  · rw [wf_iff]
    constructor
    · intro m2 hm2
      rw [show (deleteUserRow db uid).messages = db.messages.filter (fun m3 =>
          !((db.sessions.filter fun s3 => s3.user_id == some uid).any
            fun s3 => m3.session_id == some s3.id)) from rfl, List.mem_filter] at hm2
      obtain ⟨hmem, hkeep⟩ := hm2
      obtain ⟨hr, hfk⟩ := hmsgs m2 hmem
      refine ⟨hr, ?_⟩
      rw [sessionFKOk_iff] at hfk ⊢
      intro sid2 hsid2
      rcases hfk sid2 hsid2 with ⟨s0, hs0, hid⟩
      refine ⟨s0, ?_, hid⟩
      rw [show (deleteUserRow db uid).sessions = db.sessions.filter (fun s3 =>
          !(s3.user_id == some uid)) from rfl, List.mem_filter]
      refine ⟨hs0, ?_⟩
      cases hdead : (s0.user_id == some uid) with
      | false => rfl
      | true =>
          exfalso
          have hany : ((db.sessions.filter fun s3 => s3.user_id == some uid).any
              fun s3 => m2.session_id == some s3.id) = true := by
            rw [List.any_eq_true]
            refine ⟨s0, List.mem_filter.2 ⟨hs0, hdead⟩, ?_⟩
            rw [hsid2, hid]
            exact beq_self_eq_true _
          rw [hany] at hkeep
          cases hkeep
    · intro s2 hs2
      rw [show (deleteUserRow db uid).sessions = db.sessions.filter (fun s3 =>
          !(s3.user_id == some uid)) from rfl, List.mem_filter] at hs2
      obtain ⟨hmem, hkeep⟩ := hs2
      have hu := hsess s2 hmem
      rw [userFKOk_iff] at hu ⊢
      intro v hv
      have hvin := hu v hv
      rw [show (deleteUserRow db uid).users = db.users.filter (fun v2 =>
          !(v2 == uid)) from rfl, List.mem_filter]
      refine ⟨hvin, ?_⟩
      rw [hv] at hkeep
      cases hne : (v == uid) with
      | false => rfl
      | true =>
          exfalso
          rw [beq_iff_eq] at hne
          subst hne
          rw [beq_self_eq_true] at hkeep
          cases hkeep
  · rw [wf_iff]
    constructor
    · intro m2 hm2
      rw [show (deleteSessionRow db sid).messages = db.messages.filter (fun m3 =>
          !(m3.session_id == some sid)) from rfl, List.mem_filter] at hm2
      obtain ⟨hmem, hkeep⟩ := hm2
      obtain ⟨hr, hfk⟩ := hmsgs m2 hmem
      refine ⟨hr, ?_⟩
      rw [sessionFKOk_iff] at hfk ⊢
      intro sid2 hsid2
      rcases hfk sid2 hsid2 with ⟨s0, hs0, hid⟩
      refine ⟨s0, ?_, hid⟩
      rw [show (deleteSessionRow db sid).sessions = db.sessions.filter (fun s3 =>
          !(s3.id == sid)) from rfl, List.mem_filter]
      refine ⟨hs0, ?_⟩
      rw [hsid2] at hkeep
      cases hq : (s0.id == sid) with
      | false => rfl
      | true =>
          exfalso
          rw [beq_iff_eq] at hq
          have : sid2 = sid := hid.symm.trans hq
          subst this
          rw [beq_self_eq_true] at hkeep
          cases hkeep
    · intro s2 hs2
      rw [show (deleteSessionRow db sid).sessions = db.sessions.filter (fun s3 =>
          !(s3.id == sid)) from rfl, List.mem_filter] at hs2
      exact hsess s2 hs2.1

theorem schema_check_and_cascade_witness :
    (deleteUserRow sampleDB 1).wf = true :=
  (schema_check_and_cascade sampleDB sampleMsgRow sampleSessRow 1 1
    (by decide)).2.2.2.1

end KindaLike
